import Mathlib

/-!
Shallow embedding of the geocube vector-to-raster pipeline.

Source files embedded:
* geocube/rasterize.py      — dtype minimization and the three rasterization
  strategies (direct burn-in, griddata interpolation, radial-basis
  interpolation).
* geocube/vector_to_cube.py — series formatting (categorical codes, datetime
  to numeric), per-measurement grid building (grouped and ungrouped),
  time-attribute updates, dataset assembly, and fill-value selection.
* geocube/geo_utils/geobox.py — vector-data validation and the GeoBoxMaker
  grid-resolution logic (template grid vs. explicit parameters).

Machine values are modelled over exact rationals; IEEE NaN is a distinct
constructor whose equality comparison is always false, mirroring the
floating-point comparison semantics the numpy code relies on.  Python
exceptions are modelled with Except / Option results.
-/

namespace Geocube

/-- Numpy dtypes that appear in the pipeline.  The names follow numpy's
dtype.name strings; category is the pandas categorical dtype and
datetime64 covers every dtype whose name contains "datetime". -/
inductive DType
  | int8 | int16 | int32 | int64
  | uint8 | uint16 | uint32 | uint64
  | float32 | float64
  | bool_ | str_ | object_ | datetime64 | category
  deriving DecidableEq, Repr

/-- Itemsize in bytes of each dtype, as numpy reports it. -/
def DType.itemsize : DType → Nat
  | .int8 => 1 | .int16 => 2 | .int32 => 4 | .int64 => 8
  | .uint8 => 1 | .uint16 => 2 | .uint32 => 4 | .uint64 => 8
  | .float32 => 4 | .float64 => 8
  | .bool_ => 1 | .str_ => 8 | .object_ => 8 | .datetime64 => 8 | .category => 8

/-- Signed and unsigned integer dtypes: numpy.issubdtype(dtype, numpy.integer). -/
def DType.isInteger : DType → Bool
  | .int8 | .int16 | .int32 | .int64 => true
  | .uint8 | .uint16 | .uint32 | .uint64 => true
  | _ => false

/-- Floating dtypes: numpy.issubdtype(dtype, numpy.floating). -/
def DType.isFloating : DType → Bool
  | .float32 | .float64 => true
  | _ => false

/-- Numeric dtypes: numpy.issubdtype(dtype.type, numpy.number).  Booleans,
strings, objects, datetimes and pandas categoricals are not numpy numbers. -/
def DType.isNumber (d : DType) : Bool := d.isInteger || d.isFloating

/-- Dtypes whose name contains the substring "datetime", as tested by the
source with: "datetime" in str(series.dtype). -/
def DType.isDatetime : DType → Bool
  | .datetime64 => true
  | _ => false

/-- Machine floating value: either IEEE NaN or an exact numeric value. -/
inductive RVal
  | nan
  | num (q : ℚ)
  deriving DecidableEq, Repr

/-- Result of numpy.isnan on the value. -/
def RVal.isNan : RVal → Bool
  | .nan => true
  | .num _ => false

/-- IEEE equality comparison (numpy ==): NaN compares unequal to everything,
including itself. -/
def RVal.ieeeBeq : RVal → RVal → Bool
  | .num a, .num b => a == b
  | _, _ => false

/-- IEEE addition: NaN propagates. -/
def RVal.add : RVal → RVal → RVal
  | .num a, .num b => .num (a + b)
  | _, _ => .nan

/-- Value held by one cell of a pandas series: a number, a NaN/null, a
categorical label, or a timezone-naive datetime64[ns] timestamp stored as
nanoseconds since the Unix epoch. -/
inductive CellValue
  | nan
  | num (q : ℚ)
  | label (s : String)
  | timestamp (ns : ℤ)
  deriving DecidableEq, Repr

/-- View of a numeric cell as a machine floating value; non-numeric cells
(which never reach a numeric-dtype array) degrade to NaN. -/
def CellValue.toRVal : CellValue → RVal
  | .num q => .num q
  | _ => .nan

/-- Pandas series: column name, dtype, the categorical enumeration (empty
unless dtype is category) and cell values. -/
structure Series where
  name : String
  dtype : DType
  categories : List String
  values : List CellValue
  deriving DecidableEq, Repr

/-- Geometry of one vector feature for the purposes of the grid: a point
location plus its pixel footprint on the resolved grid (flattened indices),
split by the rasterio all_touched policy.  The burn-in and interpolation
primitives themselves are external collaborators; the footprint and the
point location are the deterministic data they consume. -/
structure Geometry where
  x : ℚ
  y : ℚ
  centerPixels : List Nat
  touchedPixels : List Nat
  deriving DecidableEq, Repr

/-- Resolved grid definition (GridSpec): pixel shape, affine origin and
signed resolution, and the CRS. -/
structure GeoBox where
  width : Nat
  height : Nat
  originX : ℚ
  originY : ℚ
  resY : ℚ
  resX : ℚ
  crs : Option String
  deriving DecidableEq, Repr

/-- Output of rioxarray's affine_to_coords: the x and y cell-center
coordinate arrays of the grid. -/
structure GridCoords where
  x : List ℚ
  y : List ℚ
  deriving DecidableEq, Repr

/-- Rasterio merge algorithm for cells covered by several geometries. -/
inductive MergeAlg
  | replace
  | add
  deriving DecidableEq, Repr

/-- One rasterized layer: the dtype rasterio was asked to produce, the grid
shape, and the flattened cell values. -/
structure RasterLayer where
  dtype : DType
  height : Nat
  width : Nat
  cells : List RVal
  deriving DecidableEq, Repr

/-- The predicate _is_numeric from geocube/rasterize.py:
numpy.issubdtype(data_values.dtype.type, numpy.number). -/
def isNumericSeries (s : Series) : Bool := s.dtype.isNumber

/-- The helper _remove_missing_data from geocube/rasterize.py: drops records
whose data value is null, filtering the value and geometry arrays by the
same mask. -/
def removeMissingData (dataValues : List RVal) (geometryArray : List Geometry) :
    List RVal × List Geometry :=
  let kept := (dataValues.zip geometryArray).filter fun p => !p.1.isNan
  (kept.map Prod.fst, kept.map Prod.snd)

/-- The helper _minimize_dtype from geocube/rasterize.py: int8 widens to
int16 (unsupported by GDAL), int64 widens to float64 (unsupported by GDAL),
a NaN fill forces integer dtypes to float32/float64 by itemsize, and
non-integer non-floating dtypes default to float64. -/
def minimizeDtype (dtype : DType) (fill : RVal) : DType :=
  if dtype.isInteger then
    let d1 := if dtype = DType.int8 then DType.int16 else dtype
    let d2 := if d1 = DType.int64 then DType.float64 else d1
    if fill.isNan then
      if 2 < d2.itemsize then DType.float64 else DType.float32
    else d2
  else if dtype.isFloating then dtype
  else DType.float64

/-- Pixel footprint selected by the all_touched flag of
rasterio.features.rasterize. -/
def Geometry.pixels (g : Geometry) (allTouched : Bool) : List Nat :=
  if allTouched then g.touchedPixels else g.centerPixels

/-- Merge of a newly burned value into the current cell value. -/
def mergeCell (mergeAlg : MergeAlg) (old new : RVal) : RVal :=
  match mergeAlg with
  | .replace => new
  | .add => old.add new

/-- Burn one geometry's value onto its footprint pixels. -/
def burnGeometry (mergeAlg : MergeAlg) (img : List RVal) (pixels : List Nat)
    (v : RVal) : List RVal :=
  pixels.foldl (fun im p => im.set p (mergeCell mergeAlg ((im.get? p).getD RVal.nan) v)) img

/-- Deterministic model of the external burn-in primitive
rasterio.features.rasterize: start from a fill-initialized grid and burn each
(geometry, value) pair in order. -/
def rasterizeShapes (mergeAlg : MergeAlg) (size : Nat) (fill : RVal)
    (shapes : List (List Nat × RVal)) : List RVal :=
  shapes.foldl (fun im gv => burnGeometry mergeAlg im gv.1 gv.2)
    (List.replicate size fill)

/-- The strategy rasterize_image from geocube/rasterize.py: returns none for
non-numeric values, optionally filters null records, then burns the shapes
with the minimized dtype. -/
def rasterize_image (geometryArray : List Geometry) (dataValues : Series)
    (geobox : GeoBox) (fill : RVal) (mergeAlg : MergeAlg) (filterNan : Bool)
    (allTouched : Bool) : Option RasterLayer :=
  if !isNumericSeries dataValues then none
  else
    let vals := dataValues.values.map CellValue.toRVal
    let vg := if filterNan then removeMissingData vals geometryArray
              else (vals, geometryArray)
    some { dtype := minimizeDtype dataValues.dtype fill
           height := geobox.height
           width := geobox.width
           cells := rasterizeShapes mergeAlg (geobox.height * geobox.width) fill
             ((vg.2.map (Geometry.pixels · allTouched)).zip vg.1) }

/-- Squared distance between a grid cell center and a sample point. -/
def dist2 (px py x y : ℚ) : ℚ := (px - x) * (px - x) + (py - y) * (py - y)

/-- Modelled from the spec: scipy.interpolate.griddata and scipy.interpolate.Rbf
are external interpolation primitives (spec section 6); they are modelled as
deterministic nearest-sample interpolation over the grid cell centers, with
uncovered cells receiving the fill value when no sample exists. -/
def interpolateAtCell (pts : List (ℚ × ℚ × RVal)) (x y : ℚ) (fill : RVal) : RVal :=
  match pts with
  | [] => fill
  | p :: rest =>
    (rest.foldl
      (fun best q => if dist2 q.1 q.2.1 x y < dist2 best.1 best.2.1 x y then q else best)
      p).2.2

/-- Interpolated grid over the meshgrid of the grid coordinates. -/
def interpolateGrid (pts : List (ℚ × ℚ × RVal)) (gridCoords : GridCoords)
    (fill : RVal) : List RVal :=
  (gridCoords.y.map fun y => gridCoords.x.map fun x => interpolateAtCell pts x y fill).flatten

/-- The strategy rasterize_points_griddata from geocube/rasterize.py: returns
none for non-numeric values, optionally filters null records, then
interpolates the point cloud onto the grid cell centers with the fill value
for uncovered cells. -/
def rasterize_points_griddata (geometryArray : List Geometry) (dataValues : Series)
    (gridCoords : GridCoords) (fill : RVal) (method : String) (rescale : Bool)
    (filterNan : Bool) : Option RasterLayer :=
  if !isNumericSeries dataValues then none
  else
    let vals := dataValues.values.map CellValue.toRVal
    let vg := if filterNan then removeMissingData vals geometryArray
              else (vals, geometryArray)
    let pts := (vg.2.zip vg.1).map fun p => (p.1.x, p.1.y, p.2)
    some { dtype := DType.float64
           height := gridCoords.y.length
           width := gridCoords.x.length
           cells := interpolateGrid pts gridCoords fill }

/-- The strategy rasterize_points_radial from geocube/rasterize.py: returns
none for non-numeric values, optionally filters null records, then evaluates
the radial-basis interpolant on the grid (modelled with the same
deterministic external-primitive model; this strategy has no fill argument
and every cell receives an interpolated value, modelled with NaN for an
empty point cloud). -/
def rasterize_points_radial (geometryArray : List Geometry) (dataValues : Series)
    (gridCoords : GridCoords) (method : String) (filterNan : Bool) :
    Option RasterLayer :=
  if !isNumericSeries dataValues then none
  else
    let vals := dataValues.values.map CellValue.toRVal
    let vg := if filterNan then removeMissingData vals geometryArray
              else (vals, geometryArray)
    let pts := (vg.2.zip vg.1).map fun p => (p.1.x, p.1.y, p.2)
    some { dtype := DType.float64
           height := gridCoords.y.length
           width := gridCoords.x.length
           cells := interpolateGrid pts gridCoords RVal.nan }

/-- Fill value stored by VectorToCube.__init__ (vector_to_cube.py line 83):
self._fill = fill if fill is not None else numpy.nan. -/
def initFill (fill : Option RVal) : RVal :=
  match fill with
  | some f => f
  | none => RVal.nan

/-- Lexicographic comparison of character lists by code point: the order
Python's sorted() uses on strings. -/
def charListLe : List Char → List Char → Bool
  | [], _ => true
  | _ :: _, [] => false
  | a :: as, b :: bs => if a < b then true else if b < a then false else charListLe as bs

/-- Code-point lexicographic string comparison (Python string ordering). -/
def strLe (a b : String) : Bool := charListLe a.data b.data

/-- Categorical enumeration built by VectorToCube.__init__ (vector_to_cube.py
lines 84-91): a pandas CategoricalDtype with categories
sorted(set(categories)) + ["nodata"]. -/
def categoricalCategories (supplied : List String) : List String :=
  List.insertionSort (fun a b => strLe a b = true) supplied.dedup ++ ["nodata"]

/-- Pandas categorical code of one label under a fixed enumeration, the
semantics of series.cat.codes: the label's position among the categories, or
-1 when the label is absent from the enumeration. -/
def catEncode (cats : List String) (l : String) : ℤ :=
  if l ∈ cats then (cats.indexOf l : ℤ) else -1

/-- Modelled from the spec: decoding a code back to a label via the stored
enumeration (the enumeration "is retained as metadata for round-trip
decoding") is indexing the enumeration with the code under Python sequence
indexing, where a negative index counts from the end and an out-of-range
index is an error (none). -/
def catDecode (cats : List String) (code : ℤ) : Option String :=
  if 0 ≤ code then cats.get? code.toNat
  else if 0 ≤ (cats.length : ℤ) + code then cats.get? ((cats.length : ℤ) + code).toNat
  else none

/-- Dtype of pandas series.cat.codes: the smallest signed integer type
holding every possible code for the given number of categories. -/
def catCodesDtype (n : Nat) : DType :=
  if n < 128 then DType.int8
  else if n < 32768 then DType.int16
  else DType.int32

/-- Result of pandas.to_numeric on one datetime64[ns] cell followed by
astype(numpy.float64): the nanoseconds-since-epoch count as a floating
value (NaT becomes NaN). -/
def toNumericValue : CellValue → CellValue
  | .timestamp ns => .num (ns : ℚ)
  | .nan => .nan
  | v => v

/-- Code of one categorical cell: its position in the enumeration, or -1 for
a null or otherwise absent value. -/
def catCodeValue (cats : List String) : CellValue → CellValue
  | .label l => .num (catEncode cats l)
  | _ => .num (-1)

/-- The helper _format_series_data from geocube/vector_to_cube.py (lines
19-43): a datetime series becomes float64 nanosecond counts via
pandas.to_numeric, and a categorical series becomes its integer codes; any
other series passes through unchanged. -/
def formatSeriesData (s : Series) : Series :=
  if s.dtype.isDatetime then
    { s with dtype := DType.float64, values := s.values.map toNumericValue }
  else if s.dtype = DType.category then
    { s with dtype := catCodesDtype s.categories.length
             values := s.values.map (catCodeValue s.categories) }
  else s

/-- Fill-value selection in VectorToCube._get_grid (lines 371-373) and
VectorToCube._get_grouped_grid (lines 317-321): -1 when the column dtype is
categorical, otherwise the stored fill. -/
def measurementFill (selfFill : RVal) (dtype : DType) : RVal :=
  if dtype = DType.category then RVal.num (-1) else selfFill

/-- Per-layer attributes built by VectorToCube._get_attrs plus the optional
units annotation added for temporal measurements. -/
structure Attrs where
  name : String
  longName : String
  fillValue : RVal
  units : Option String
  deriving DecidableEq, Repr

/-- The static helper VectorToCube._get_attrs (lines 181-203). -/
def getAttrs (measurementName : String) (fillValue : RVal) : Attrs :=
  { name := measurementName
    longName := measurementName
    fillValue := fillValue
    units := none }

/-- Attribute half of VectorToCube._update_time_attrs (lines 220-221): set
the units annotation and a zero fill value. -/
def setTimeAttrs (attrs : Attrs) : Attrs :=
  { attrs with units := some "seconds from 1970-01-01T00:00:00"
               fillValue := RVal.num 0 }

/-- Data half of VectorToCube._update_time_attrs (line 222):
image_data[image_data == self._fill] = 0.0, an elementwise IEEE equality
mask against the stored fill. -/
def maskFillToZero (selfFill : RVal) (cells : List RVal) : List RVal :=
  cells.map fun c => if c.ieeeBeq selfFill then RVal.num 0 else c

/-- VectorToCube._update_time_attrs (lines 205-222): returns the updated
attributes and the updated image cells. -/
def updateTimeAttrs (selfFill : RVal) (attrs : Attrs) (cells : List RVal) :
    Attrs × List RVal :=
  (setTimeAttrs attrs, maskFillToZero selfFill cells)

/-- Shape of the pluggable rasterization strategy as invoked by
VectorToCube: geometry_array, data_values (formatted), geobox, grid_coords,
fill. -/
abbrev RasterizeFn :=
  List Geometry → Series → GeoBox → GridCoords → RVal → Option RasterLayer

/-- Default strategy wiring of VectorToCube: rasterize_image with its default
keyword options; the grid_coords argument is accepted and ignored. -/
def rasterizeImageFn : RasterizeFn := fun geoms s gb _gc fill =>
  rasterize_image geoms s gb fill MergeAlg.replace false false

/-- Everything needed to create one xarray DataArray: dimension names,
stacked layers (one layer for an ungrouped measurement) and attributes. -/
structure GridEntry where
  dims : List String
  layers : List RasterLayer
  attrs : Attrs
  deriving DecidableEq, Repr

/-- VectorToCube._get_grid (lines 350-398): rasterize one ungrouped
measurement with the selected fill, returning none when the strategy does
(the measurement is then skipped), and applying the time-attribute update
when the column dtype is a datetime. -/
def getGrid (rfn : RasterizeFn) (geobox : GeoBox) (gridCoords : GridCoords)
    (selfFill : RVal) (geoms : List Geometry) (s : Series) : Option GridEntry :=
  let fillValue := measurementFill selfFill s.dtype
  match rfn geoms (formatSeriesData s) geobox gridCoords fillValue with
  | none => none
  | some image =>
    let attrs := getAttrs s.name fillValue
    if s.dtype.isDatetime then
      let ac := updateTimeAttrs selfFill attrs image.cells
      some { dims := ["y", "x"], layers := [{ image with cells := ac.2 }], attrs := ac.1 }
    else
      some { dims := ["y", "x"], layers := [image], attrs := attrs }

/-- Loop body of VectorToCube._get_grouped_grid (lines 316-335): rasterize
each group in order with that group's fill selection; the first none result
aborts the whole measurement (early return of None), otherwise all group
layers are collected in order. -/
def rasterizeGroups (rfn : RasterizeFn) (geobox : GeoBox) (gridCoords : GridCoords)
    (selfFill : RVal) : List (List Geometry × Series) → Option (List RasterLayer)
  | [] => some []
  | g :: rest =>
    match rfn g.1 (formatSeriesData g.2) geobox gridCoords
        (measurementFill selfFill g.2.dtype) with
    | none => none
    | some image =>
      (rasterizeGroups rfn geobox gridCoords selfFill rest).map (image :: ·)

/-- VectorToCube._get_grouped_grid (lines 285-348): all-or-nothing over the
groups; on success the attributes use the fill selected for the last group
iterated, and the time-attribute update applies when the last group's column
dtype is a datetime (masking across the whole stacked array). -/
def getGroupedGrid (rfn : RasterizeFn) (geobox : GeoBox) (gridCoords : GridCoords)
    (selfFill : RVal) (groupBy : String) (groups : List (List Geometry × Series))
    (measurementName : String) : Option GridEntry :=
  match rasterizeGroups rfn geobox gridCoords selfFill groups with
  | none => none
  | some images =>
    let fillValue := match groups.getLast? with
      | some g => measurementFill selfFill g.2.dtype
      | none => selfFill
    let attrs := getAttrs measurementName fillValue
    let isDt := match groups.getLast? with
      | some g => g.2.dtype.isDatetime
      | none => false
    if isDt then
      some { dims := [groupBy, "y", "x"]
             layers := images.map fun im => { im with cells := maskFillToZero selfFill im.cells }
             attrs := setTimeAttrs attrs }
    else
      some { dims := [groupBy, "y", "x"], layers := images, attrs := attrs }

/-- One measurement column of a grouped dataframe: the measurement name and,
for each group in iteration order, the group's geometry and value series. -/
structure MeasurementData where
  name : String
  groups : List (List Geometry × Series)
  deriving DecidableEq

/-- The grouped branch of VectorToCube._get_dataset (lines 252-263): build
the data-variable mapping in measurement order, adding each measurement
whose grouped grid is non-null and silently skipping the others; the
function is total, so the overall call always yields a dataset. -/
def getDatasetGrouped (rfn : RasterizeFn) (geobox : GeoBox) (gridCoords : GridCoords)
    (selfFill : RVal) (groupBy : String) (cols : List MeasurementData) :
    List (String × GridEntry) :=
  cols.filterMap fun c =>
    (getGroupedGrid rfn geobox gridCoords selfFill groupBy c.groups c.name).map
      fun e => (c.name, e)

/-- Timezone-aware timestamp: the absolute instant in nanoseconds since the
Unix epoch together with its timezone display offset. -/
structure TZTimestamp where
  utcNs : ℤ
  offsetNs : ℤ
  deriving DecidableEq, Repr

/-- Pandas dt.tz_convert("UTC").dt.tz_localize(None) on a timezone-aware
timestamp: conversion to UTC preserves the absolute instant and dropping the
timezone keeps the UTC wall time. -/
def toUtcNaiveNs (t : TZTimestamp) : ℤ := t.utcNs

/-- Datetime conversion applied by make_geocube (vector_to_cube.py lines
153-160) to each datetime measurement present in the measurement list:
to UTC-naive datetime64[ns] values. -/
def convertDatetimeColumn (ts : List TZTimestamp) : List CellValue :=
  ts.map fun t => CellValue.timestamp (toUtcNaiveNs t)

/-- Error taxonomy of the embedded pipeline.  The first four come from the
grid-configuration checks in GeoBoxMaker.from_vector (the assert statements
guarding the template-grid path and the RuntimeError for a missing
resolution); the last two are the VectorDataError cases of
load_vector_data. -/
inductive GeoCubeError
  | likeWithOutputCrs
  | likeWithResolution
  | likeWithAlign
  | resolutionMissing
  | emptyVectorData
  | missingGeometryColumn
  deriving DecidableEq, Repr

/-- Configuration errors in the sense of the spec's error taxonomy (section
7): a template grid combined with explicit grid parameters, or a missing
resolution. -/
def GeoCubeError.isConfigError : GeoCubeError → Bool
  | .likeWithOutputCrs | .likeWithResolution | .likeWithAlign | .resolutionMissing => true
  | _ => false

/-- Vector data as consumed by load_vector_data and the grid resolver: its
column names, row count, CRS and total bounds. -/
structure VectorData where
  columns : List String
  numRows : Nat
  crs : Option String
  minX : ℚ
  minY : ℚ
  maxX : ℚ
  maxY : ℚ
  deriving DecidableEq, Repr

/-- The loader load_vector_data from geocube/geo_utils/geobox.py (lines
55-90): fails on an empty frame, then on a missing geometry column, and
defaults an undefined CRS to geographic EPSG:4326. -/
def loadVectorData (vd : VectorData) : Except GeoCubeError VectorData :=
  if vd.numRows = 0 then .error .emptyVectorData
  else if "geometry" ∉ vd.columns then .error .missingGeometryColumn
  else if vd.crs = none then .ok { vd with crs := some "EPSG:4326" }
  else .ok vd

/-- GeoJSON bounding-geometry payload: its bounds and the optional embedded
CRS tag. -/
structure GeomJson where
  minX : ℚ
  minY : ℚ
  maxX : ℚ
  maxY : ℚ
  crsTag : Option String
  deriving DecidableEq, Repr

/-- The partial grid configuration stored by GeoBoxMaker.__init__ (lines
131-158). -/
structure GeoBoxMakerCfg where
  outputCrs : Option String
  resolution : Option (ℚ × ℚ)
  align : Option (ℚ × ℚ)
  geom : Option GeomJson
  like : Option GeoBox
  deriving DecidableEq

/-- Modelled from the spec: datacube's GeoBox.from_geopolygon is an external
collaborator (spec section 4.1) — the extent is snapped outward to
whole-pixel multiples of the resolution, offset by the alignment, preserving
the sign of each resolution component. -/
def geoBoxFromBounds (minX minY maxX maxY : ℚ) (res : ℚ × ℚ) (crs : Option String)
    (align : ℚ × ℚ) : GeoBox :=
  let resY := res.1
  let resX := res.2
  let absX := |resX|
  let absY := |resY|
  let width := (⌈(maxX - minX) / absX⌉).toNat
  let height := (⌈(maxY - minY) / absY⌉).toNat
  let originX := align.2 + absX * ⌊(minX - align.2) / absX⌋
  let originY :=
    if resY < 0 then align.1 + absY * ⌈(maxY - align.1) / absY⌉
    else align.1 + absY * ⌊(minY - align.1) / absY⌋
  { width := width
    height := height
    originX := originX
    originY := originY
    resY := resY
    resX := resX
    crs := crs }

/-- GeoBoxMaker.from_vector from geocube/geo_utils/geobox.py (lines
160-227): loads and validates the vector data; with a template grid it
rejects any explicit grid parameter (the assert statements, in source
order) and otherwise returns the template's grid definition unchanged;
without one it requires a resolution (RuntimeError otherwise) and computes
the grid from the bounding geometry or the data's total bounds (geographic
reprojection of bounds is an external collaborator and is modelled as the
identity on the stored bounds). -/
def from_vector (cfg : GeoBoxMakerCfg) (vectorData : VectorData) :
    Except GeoCubeError GeoBox :=
  match loadVectorData vectorData with
  | .error e => .error e
  | .ok vd =>
  match cfg.like with
  | some templateGrid =>
    if cfg.outputCrs.isSome then .error .likeWithOutputCrs
    else if cfg.resolution.isSome then .error .likeWithResolution
    else if cfg.align.isSome then .error .likeWithAlign
    else .ok templateGrid
  | none =>
    match cfg.resolution with
    | none => .error .resolutionMissing
    | some res =>
      let crs := match cfg.outputCrs with
        | some c => some c
        | none => vd.crs
      let align := cfg.align.getD (0, 0)
      let b := match cfg.geom with
        | some g => (g.minX, g.minY, g.maxX, g.maxY)
        | none => (vd.minX, vd.minY, vd.maxX, vd.maxY)
      .ok (geoBoxFromBounds b.1 b.2.1 b.2.2.1 b.2.2.2 res crs align)

theorem charListLe_total (as bs : List Char) :
    charListLe as bs = true ∨ charListLe bs as = true := by
  induction as generalizing bs with
  | nil => left; rfl
  | cons a as ih =>
    cases bs with
    | nil => right; rfl
    | cons b bs =>
      rcases lt_trichotomy a b with h | h | h
      · left; simp [charListLe, h]
      · subst h
        rcases ih bs with h2 | h2
        · left; simp [charListLe, lt_irrefl, h2]
        · right; simp [charListLe, lt_irrefl, h2]
      · right; simp [charListLe, h]

theorem charListLe_trans (as bs cs : List Char) (h1 : charListLe as bs = true)
    (h2 : charListLe bs cs = true) : charListLe as cs = true := by
  induction as generalizing bs cs with
  | nil => rfl
  | cons a as ih =>
    cases bs with
    | nil => simp [charListLe] at h1
    | cons b bs =>
      cases cs with
      | nil => simp [charListLe] at h2
      | cons c cs =>
        rcases lt_trichotomy a b with hab | hab | hab
        · rcases lt_trichotomy b c with hbc | hbc | hbc
          · simp [charListLe, lt_trans hab hbc]
          · subst hbc; simp [charListLe, hab]
          · simp [charListLe, hbc, not_lt_of_lt hbc, lt_asymm hbc] at h2
        · subst hab
          rcases lt_trichotomy a c with hac | hac | hac
          · simp [charListLe, hac]
          · subst hac
            simp [charListLe, lt_irrefl] at h1 h2 ⊢
            exact ih _ _ h1 h2
          · simp [charListLe, lt_asymm hac, hac] at h2
        · simp [charListLe, lt_asymm hab, hab] at h1

instance : IsTotal String (fun a b => strLe a b = true) :=
  ⟨fun a b => charListLe_total a.data b.data⟩

instance : IsTrans String (fun a b => strLe a b = true) :=
  ⟨fun a b c => charListLe_trans a.data b.data c.data⟩

theorem ieeeBeq_nan_right (c : RVal) : c.ieeeBeq RVal.nan = false := by
  cases c <;> rfl

theorem loadVectorData_ok (vd : VectorData) (hrows : vd.numRows ≠ 0)
    (hgeom : "geometry" ∈ vd.columns) :
    ∃ vd2, loadVectorData vd = Except.ok vd2 := by
  unfold loadVectorData
  rw [if_neg hrows, if_neg (not_not_intro hgeom)]
  by_cases h : vd.crs = none
  · rw [if_pos h]; exact ⟨_, rfl⟩
  · rw [if_neg h]; exact ⟨_, rfl⟩

/-- Grid of one pixel used as a concrete input by the witnesses. -/
def demoGeoBox : GeoBox :=
  { width := 1, height := 1, originX := 0, originY := 0, resY := -1, resX := 1,
    crs := some "EPSG:4326" }

/-- Cell-center coordinates of the one-pixel demo grid. -/
def demoCoords : GridCoords := { x := [0], y := [0] }

/-- One feature covering the single pixel of the demo grid. -/
def demoGeometry : Geometry :=
  { x := 0, y := 0, centerPixels := [0], touchedPixels := [0] }

/-- Concrete string-typed series: not rasterizable by any strategy. -/
def demoStrSeries : Series :=
  { name := "s", dtype := DType.str_, categories := [], values := [CellValue.label "a"] }

/-- Concrete float-typed series. -/
def demoNumSeries : Series :=
  { name := "a", dtype := DType.float64, categories := [], values := [CellValue.num 2] }

/-- C2: for every burn-in rasterization the output dtype is the minimized
source dtype; an int8 source widens to int16 (for a non-NaN fill, which is
further promoted to floating otherwise); an int64 source widens to float64;
a NaN fill with an integer source forces a floating dtype, float32 for
source itemsize at most 2 bytes and float64 otherwise; a fill of 0 with a
small integer dtype (int16, int32) preserves the integer dtype. -/
theorem burnin_output_dtype_minimized :
    (∀ geoms s gb fill mergeAlg fnan touched, isNumericSeries s = true →
      ∃ img, rasterize_image geoms s gb fill mergeAlg fnan touched = some img ∧
        img.dtype = minimizeDtype s.dtype fill) ∧
    (∀ fill : RVal, fill.isNan = false →
      minimizeDtype DType.int8 fill = DType.int16) ∧
    (∀ fill : RVal, minimizeDtype DType.int64 fill = DType.float64) ∧
    (∀ d : DType, d.isInteger = true →
      minimizeDtype d RVal.nan =
        (if d.itemsize ≤ 2 then DType.float32 else DType.float64)) ∧
    minimizeDtype DType.int16 (RVal.num 0) = DType.int16 ∧
    minimizeDtype DType.int32 (RVal.num 0) = DType.int32 := by
  refine ⟨?_, ?_, ?_, ?_, by decide, by decide⟩
  · intro geoms s gb fill mergeAlg fnan touched h
    unfold rasterize_image
    rw [h]
    exact ⟨_, rfl, rfl⟩
  · intro fill h
    cases fill with
    | nan => simp [RVal.isNan] at h
    | num q => rfl
  · intro fill
    cases fill with
    | nan => rfl
    | num q => rfl
  · intro d hd
    cases d <;> revert hd <;> decide

theorem burnin_output_dtype_minimized_witness :
    (∃ img, rasterize_image [demoGeometry]
        { name := "v", dtype := DType.int64, categories := [], values := [CellValue.num 3] }
        demoGeoBox (RVal.num 0) MergeAlg.replace false false = some img ∧
        img.dtype = minimizeDtype DType.int64 (RVal.num 0)) ∧
    minimizeDtype DType.int8 (RVal.num 0) = DType.int16 ∧
    minimizeDtype DType.int64 (RVal.num 0) = DType.float64 ∧
    minimizeDtype DType.int32 RVal.nan =
      (if DType.int32.itemsize ≤ 2 then DType.float32 else DType.float64) :=
  ⟨burnin_output_dtype_minimized.1 [demoGeometry] _ demoGeoBox (RVal.num 0)
      MergeAlg.replace false false (by decide),
   burnin_output_dtype_minimized.2.1 (RVal.num 0) (by decide),
   burnin_output_dtype_minimized.2.2.1 (RVal.num 0),
   burnin_output_dtype_minimized.2.2.2.1 DType.int32 (by decide)⟩

/-- C4: every rasterization strategy (direct burn-in, griddata
interpolation, radial-basis interpolation) returns null — none, not an
exception; all three are total functions here — when the measurement's
values have a non-numeric dtype. -/
theorem nonnumeric_returns_none (geoms : List Geometry) (s : Series)
    (gb : GeoBox) (gc : GridCoords) (fill : RVal) (mergeAlg : MergeAlg)
    (method : String) (rescale fnan touched : Bool)
    (h : s.dtype.isNumber = false) :
    rasterize_image geoms s gb fill mergeAlg fnan touched = none ∧
    rasterize_points_griddata geoms s gc fill method rescale fnan = none ∧
    rasterize_points_radial geoms s gc method fnan = none := by
  refine ⟨?_, ?_, ?_⟩ <;>
    simp [rasterize_image, rasterize_points_griddata, rasterize_points_radial,
      isNumericSeries, h]

theorem nonnumeric_returns_none_witness :
    rasterize_image [demoGeometry] demoStrSeries demoGeoBox RVal.nan
      MergeAlg.replace false false = none ∧
    rasterize_points_griddata [demoGeometry] demoStrSeries demoCoords RVal.nan
      "nearest" false false = none ∧
    rasterize_points_radial [demoGeometry] demoStrSeries demoCoords
      "linear" false = none :=
  nonnumeric_returns_none [demoGeometry] demoStrSeries demoGeoBox demoCoords
    RVal.nan MergeAlg.replace "nearest" false false false (by decide)

/-- C9: every rasterization strategy is deterministic — two calls with equal
geometries, values, grid specification, fill value and options return equal
results (both none or equal layers); each strategy in this embedding is a
pure function of exactly these arguments, with no other state. -/
theorem rasterize_strategies_deterministic
    (g1 g2 : List Geometry) (s1 s2 : Series) (gb1 gb2 : GeoBox)
    (gc1 gc2 : GridCoords) (f1 f2 : RVal) (m1 m2 : MergeAlg)
    (meth1 meth2 : String) (r1 r2 fn1 fn2 t1 t2 : Bool)
    (hg : g1 = g2) (hs : s1 = s2) (hb : gb1 = gb2) (hc : gc1 = gc2)
    (hf : f1 = f2) (hm : m1 = m2) (hmeth : meth1 = meth2) (hr : r1 = r2)
    (hfn : fn1 = fn2) (ht : t1 = t2) :
    rasterize_image g1 s1 gb1 f1 m1 fn1 t1 =
      rasterize_image g2 s2 gb2 f2 m2 fn2 t2 ∧
    rasterize_points_griddata g1 s1 gc1 f1 meth1 r1 fn1 =
      rasterize_points_griddata g2 s2 gc2 f2 meth2 r2 fn2 ∧
    rasterize_points_radial g1 s1 gc1 meth1 fn1 =
      rasterize_points_radial g2 s2 gc2 meth2 fn2 := by
  subst hg hs hb hc hf hm hmeth hr hfn ht
  exact ⟨rfl, rfl, rfl⟩

theorem rasterize_strategies_deterministic_witness :
    rasterize_image [demoGeometry] demoNumSeries demoGeoBox RVal.nan
        MergeAlg.replace false false =
      rasterize_image [demoGeometry] demoNumSeries demoGeoBox RVal.nan
        MergeAlg.replace false false ∧
    rasterize_points_griddata [demoGeometry] demoNumSeries demoCoords RVal.nan
        "nearest" false false =
      rasterize_points_griddata [demoGeometry] demoNumSeries demoCoords RVal.nan
        "nearest" false false ∧
    rasterize_points_radial [demoGeometry] demoNumSeries demoCoords
        "linear" false =
      rasterize_points_radial [demoGeometry] demoNumSeries demoCoords
        "linear" false :=
  rasterize_strategies_deterministic [demoGeometry] [demoGeometry]
    demoNumSeries demoNumSeries demoGeoBox demoGeoBox demoCoords demoCoords
    RVal.nan RVal.nan MergeAlg.replace MergeAlg.replace "nearest" "nearest"
    false false false false false false
    rfl rfl rfl rfl rfl rfl rfl rfl rfl rfl

/-- Valid concrete vector data used by the grid-resolution witnesses. -/
def demoVD : VectorData :=
  { columns := ["geometry", "a"], numRows := 1, crs := some "EPSG:4326",
    minX := 0, minY := 0, maxX := 1, maxY := 1 }

/-- C5: a template grid (like) combined with any of output CRS, resolution
or align makes the grid resolution fail with a configuration error; a
template grid alone returns the template's grid definition unchanged.  The
vector data itself must be valid, since the loader runs first. -/
theorem like_with_grid_params_config_error (ocrs : Option String)
    (res al : Option (ℚ × ℚ)) (geom : Option GeomJson) (gb : GeoBox)
    (vd : VectorData) (hrows : vd.numRows ≠ 0)
    (hgeom : "geometry" ∈ vd.columns) :
    ((ocrs.isSome ∨ res.isSome ∨ al.isSome) →
      ∃ e, from_vector ⟨ocrs, res, al, geom, some gb⟩ vd = .error e ∧
        e.isConfigError = true) ∧
    (ocrs = none → res = none → al = none →
      from_vector ⟨ocrs, res, al, geom, some gb⟩ vd = .ok gb) := by
  obtain ⟨vd2, hload⟩ := loadVectorData_ok vd hrows hgeom
  constructor
  · intro hor
    rcases ocrs with _ | c
    · rcases res with _ | r
      · rcases al with _ | a
        · simp at hor
        · exact ⟨.likeWithAlign, by simp [from_vector, hload], rfl⟩
      · exact ⟨.likeWithResolution, by simp [from_vector, hload], rfl⟩
    · exact ⟨.likeWithOutputCrs, by simp [from_vector, hload], rfl⟩
  · rintro rfl rfl rfl
    simp [from_vector, hload]

theorem like_with_grid_params_config_error_witness :
    (∃ e, from_vector ⟨some "EPSG:3857", none, none, none, some demoGeoBox⟩
        demoVD = .error e ∧ e.isConfigError = true) ∧
    from_vector ⟨none, none, none, none, some demoGeoBox⟩ demoVD =
      .ok demoGeoBox :=
  ⟨(like_with_grid_params_config_error (some "EPSG:3857") none none none
      demoGeoBox demoVD (by decide) (by decide)).1 (Or.inl rfl),
   (like_with_grid_params_config_error none none none none
      demoGeoBox demoVD (by decide) (by decide)).2 rfl rfl rfl⟩

/-- C6: without a template grid and without a resolution, the grid
resolution fails with a configuration error (the RuntimeError raised at
geobox.py lines 191-192). -/
theorem missing_resolution_config_error (ocrs : Option String)
    (al : Option (ℚ × ℚ)) (geom : Option GeomJson) (vd : VectorData)
    (hrows : vd.numRows ≠ 0) (hgeom : "geometry" ∈ vd.columns) :
    from_vector ⟨ocrs, none, al, geom, none⟩ vd =
      .error .resolutionMissing ∧
    GeoCubeError.isConfigError .resolutionMissing = true := by
  obtain ⟨vd2, hload⟩ := loadVectorData_ok vd hrows hgeom
  exact ⟨by simp [from_vector, hload], rfl⟩

theorem missing_resolution_config_error_witness :
    from_vector ⟨none, none, none, none, none⟩ demoVD =
      .error .resolutionMissing :=
  (missing_resolution_config_error none none none demoVD
    (by decide) (by decide)).1

/-- Concrete categorical series used by the fill-selection witness. -/
def demoCatSeries : Series :=
  { name := "c", dtype := DType.category, categories := ["a", "b", "nodata"],
    values := [CellValue.label "b"] }

/-- Grid entry produced for demoCatSeries by the default strategy on the
demo grid: codes dtype int8 minimizes to int16 under the -1 fill, and the
single pixel receives the code of label "b". -/
def demoCatEntry : GridEntry :=
  { dims := ["y", "x"]
    layers := [{ dtype := DType.int16, height := 1, width := 1,
                 cells := [RVal.num 1] }]
    attrs := getAttrs "c" (RVal.num (-1)) }

/-- C10: a measurement with a categorical column dtype is rasterized with
fill -1 — and its layer metadata records fill -1 — regardless of the
caller-supplied fill; a non-categorical measurement is rasterized with the
stored fill, which defaults to NaN when the caller supplies none. -/
theorem categorical_fill_minus_one :
    (∀ f, measurementFill f DType.category = RVal.num (-1)) ∧
    (∀ f d, d ≠ DType.category → measurementFill f d = f) ∧
    initFill none = RVal.nan ∧
    (∀ f, initFill (some f) = f) ∧
    (∀ (rfn : RasterizeFn) gb gc f geoms s e, s.dtype = DType.category →
      getGrid rfn gb gc f geoms s = some e →
      e.attrs.fillValue = RVal.num (-1)) ∧
    (∀ (rfn : RasterizeFn) gb gc f gby groups name gl e,
      groups.getLast? = some gl → gl.2.dtype = DType.category →
      getGroupedGrid rfn gb gc f gby groups name = some e →
      e.attrs.fillValue = RVal.num (-1)) := by
  refine ⟨fun f => rfl, ?_, rfl, fun f => rfl, ?_, ?_⟩
  · intro f d hd
    unfold measurementFill
    rw [if_neg hd]
  · intro rfn gb gc f geoms s e hcat hsome
    simp only [getGrid, hcat] at hsome
    rcases hr : rfn geoms (formatSeriesData s) gb gc
        (measurementFill f DType.category) with _ | image
    · rw [hr] at hsome; cases hsome
    · rw [hr] at hsome
      simp only [DType.isDatetime] at hsome
      cases hsome
      rfl
  · intro rfn gb gc f gby groups name gl e hlast hcat hsome
    simp only [getGroupedGrid] at hsome
    rcases hr : rasterizeGroups rfn gb gc f groups with _ | images
    · rw [hr] at hsome; cases hsome
    · rw [hr, hlast] at hsome
      simp only [hcat, DType.isDatetime, Bool.false_eq_true, if_false] at hsome
      cases hsome
      rfl

theorem categorical_fill_minus_one_witness :
    measurementFill (RVal.num 7) DType.category = RVal.num (-1) ∧
    measurementFill (RVal.num 7) DType.float64 = RVal.num 7 ∧
    initFill none = RVal.nan ∧
    initFill (some (RVal.num 7)) = RVal.num 7 ∧
    demoCatEntry.attrs.fillValue = RVal.num (-1) :=
  ⟨categorical_fill_minus_one.1 (RVal.num 7),
   categorical_fill_minus_one.2.1 (RVal.num 7) DType.float64 (by decide),
   categorical_fill_minus_one.2.2.1,
   categorical_fill_minus_one.2.2.2.1 (RVal.num 7),
   categorical_fill_minus_one.2.2.2.2.1 rasterizeImageFn demoGeoBox demoCoords
     (RVal.num 7) [demoGeometry] demoCatSeries demoCatEntry rfl (by decide)⟩

/-- C7 (divergence): the pipeline does convert a listed datetime measurement
to UTC-naive values, but _format_series_data then produces floating
NANOSECONDS since the epoch (pandas.to_numeric on a datetime64[ns] series,
vector_to_cube.py line 35), not the epoch-SECONDS announced by the layer's
own units attribute "seconds from 1970-01-01T00:00:00": the instant one
second after the epoch (here carried with a UTC-5 timezone) becomes the
float 1000000000.0 rather than 1.0. -/
theorem datetime_converted_to_nanoseconds :
    (formatSeriesData
      { name := "t", dtype := DType.datetime64, categories := [],
        values := convertDatetimeColumn
          [{ utcNs := 1000000000, offsetNs := -18000000000000 }] }).values =
      [CellValue.num 1000000000] ∧
    (formatSeriesData
      { name := "t", dtype := DType.datetime64, categories := [],
        values := convertDatetimeColumn
          [{ utcNs := 1000000000, offsetNs := -18000000000000 }] }).dtype =
      DType.float64 ∧
    (setTimeAttrs (getAttrs "t" RVal.nan)).units =
      some "seconds from 1970-01-01T00:00:00" ∧
    (1000000000 : ℚ) ≠ 1 := by
  refine ⟨by decide, by decide, rfl, by norm_num⟩

/-- C8 counterexample: with the default NaN fill, a cell holding the fill
value is NOT overwritten to zero by the time-attribute update, because the
elementwise mask image_data == fill is everywhere false when the fill is
NaN. -/
theorem nan_fill_not_zeroed_counterexample :
    (updateTimeAttrs RVal.nan (getAttrs "t" RVal.nan) [RVal.nan]).2 =
      [RVal.nan] ∧
    RVal.nan ≠ RVal.num 0 := by decide

/-- C8 (amended): the time-attribute update always sets the units annotation
and records fill-value 0 in the metadata; a cell is overwritten to zero
exactly when it compares IEEE-equal to the stored fill, so with a non-NaN
fill every cell holding the fill becomes zero, while with a NaN fill (the
default) no cell is overwritten; getGrid applies exactly this update to
every datetime measurement it assembles. -/
theorem time_attrs_update_amended (selfFill : RVal) (attrs : Attrs)
    (cells : List RVal) :
    (updateTimeAttrs selfFill attrs cells).1.units =
      some "seconds from 1970-01-01T00:00:00" ∧
    (updateTimeAttrs selfFill attrs cells).1.fillValue = RVal.num 0 ∧
    (∀ q : ℚ, selfFill = RVal.num q →
      (updateTimeAttrs selfFill attrs cells).2 =
        cells.map fun c => if c = selfFill then RVal.num 0 else c) ∧
    (selfFill.isNan = true →
      (updateTimeAttrs selfFill attrs cells).2 = cells) ∧
    (∀ (rfn : RasterizeFn) gb gc geoms s image,
      s.dtype.isDatetime = true →
      rfn geoms (formatSeriesData s) gb gc
        (measurementFill selfFill s.dtype) = some image →
      getGrid rfn gb gc selfFill geoms s =
        some { dims := ["y", "x"]
               layers := [{ image with
                 cells := (updateTimeAttrs selfFill
                   (getAttrs s.name (measurementFill selfFill s.dtype))
                   image.cells).2 }]
               attrs := (updateTimeAttrs selfFill
                 (getAttrs s.name (measurementFill selfFill s.dtype))
                 image.cells).1 }) := by
  refine ⟨rfl, rfl, ?_, ?_, ?_⟩
  · intro q hq
    subst hq
    unfold updateTimeAttrs maskFillToZero
    refine List.map_congr_left ?_
    intro c _
    cases c with
    | nan => simp [RVal.ieeeBeq]
    | num a => by_cases h : a = q <;> simp [RVal.ieeeBeq, h]
  · intro h
    cases selfFill with
    | num q => simp [RVal.isNan] at h
    | nan =>
      unfold updateTimeAttrs maskFillToZero
      simp [ieeeBeq_nan_right]
  · intro rfn gb gc geoms s image hdt hr
    simp only [getGrid, hr, hdt, if_true]

theorem time_attrs_update_amended_witness :
    (updateTimeAttrs (RVal.num (-9999)) (getAttrs "t" (RVal.num (-9999)))
        [RVal.num (-9999), RVal.num 3]).1.units =
      some "seconds from 1970-01-01T00:00:00" ∧
    (updateTimeAttrs (RVal.num (-9999)) (getAttrs "t" (RVal.num (-9999)))
        [RVal.num (-9999), RVal.num 3]).2 =
      List.map (fun c => if c = RVal.num (-9999) then RVal.num 0 else c)
        [RVal.num (-9999), RVal.num 3] :=
  ⟨(time_attrs_update_amended (RVal.num (-9999))
      (getAttrs "t" (RVal.num (-9999))) [RVal.num (-9999), RVal.num 3]).1,
   (time_attrs_update_amended (RVal.num (-9999))
      (getAttrs "t" (RVal.num (-9999))) [RVal.num (-9999), RVal.num 3]).2.2.1
     (-9999) rfl⟩

theorem catDecode_catEncode_mem (cats : List String) (l : String)
    (h : l ∈ cats) : catDecode cats (catEncode cats l) = some l := by
  unfold catEncode catDecode
  rw [if_pos h]
  have hlt : cats.indexOf l < cats.length := List.indexOf_lt_length.mpr h
  rw [if_pos (Int.natCast_nonneg _), Int.toNat_natCast,
    List.get?_eq_get hlt, List.indexOf_get]

theorem catDecode_neg_one (pre : List String) (a : String) :
    catDecode (pre ++ [a]) (-1) = some a := by
  unfold catDecode
  have hlen : ((pre ++ [a]).length : ℤ) + (-1) = (pre.length : ℤ) := by
    simp [List.length_append]
  rw [if_neg (by norm_num), if_pos (by rw [hlen]; exact Int.natCast_nonneg _),
    hlen, Int.toNat_natCast]
  exact List.get?_concat_length pre a

/-- C3: the stored categorical enumeration is the sorted (code-point
lexicographic) unique supplied labels with one "nodata" sentinel appended
as the final label; encoding a label of the enumeration and decoding the
resulting code via the enumeration recovers the label; any value outside
the enumeration encodes to the code -1, which decodes (Python
last-element indexing) to the "nodata" sentinel — never an error. -/
theorem categorical_enumeration_roundtrip (supplied : List String) :
    (categoricalCategories supplied).getLast? = some "nodata" ∧
    (∃ pre, categoricalCategories supplied = pre ++ ["nodata"] ∧
      pre.Sorted (fun a b => strLe a b = true) ∧ pre.Nodup ∧
      ∀ x, x ∈ pre ↔ x ∈ supplied) ∧
    (∀ l, l ∈ categoricalCategories supplied →
      catDecode (categoricalCategories supplied)
        (catEncode (categoricalCategories supplied) l) = some l) ∧
    (∀ l, l ∉ categoricalCategories supplied →
      catEncode (categoricalCategories supplied) l = -1 ∧
      catDecode (categoricalCategories supplied)
        (catEncode (categoricalCategories supplied) l) = some "nodata") := by
  refine ⟨List.getLast?_concat _, ?_, ?_, ?_⟩
  · refine ⟨List.insertionSort (fun a b => strLe a b = true) supplied.dedup,
      rfl, List.sorted_insertionSort _ _, ?_, ?_⟩
    · exact (List.perm_insertionSort _ _).nodup_iff.mpr (List.nodup_dedup _)
    · intro x
      rw [(List.perm_insertionSort _ _).mem_iff, List.mem_dedup]
  · intro l hl
    exact catDecode_catEncode_mem _ _ hl
  · intro l hl
    constructor
    · unfold catEncode
      rw [if_neg hl]
    · have henc : catEncode (categoricalCategories supplied) l = -1 := by
        unfold catEncode
        rw [if_neg hl]
      rw [henc]
      exact catDecode_neg_one (List.insertionSort (fun a b => strLe a b = true)
        supplied.dedup) "nodata"

theorem categorical_enumeration_roundtrip_witness :
    catDecode (categoricalCategories ["silt", "sand", "clay", "sand"])
      (catEncode (categoricalCategories ["silt", "sand", "clay", "sand"])
        "sand") = some "sand" ∧
    catEncode (categoricalCategories ["silt", "sand", "clay", "sand"])
      "frank" = -1 ∧
    catDecode (categoricalCategories ["silt", "sand", "clay", "sand"])
      (catEncode (categoricalCategories ["silt", "sand", "clay", "sand"])
        "frank") = some "nodata" :=
  ⟨(categorical_enumeration_roundtrip ["silt", "sand", "clay", "sand"]).2.2.1
      "sand" (by decide),
   ((categorical_enumeration_roundtrip ["silt", "sand", "clay", "sand"]).2.2.2
      "frank" (by decide)).1,
   ((categorical_enumeration_roundtrip ["silt", "sand", "clay", "sand"]).2.2.2
      "frank" (by decide)).2⟩

theorem rasterizeGroups_none_of_mem (rfn : RasterizeFn) (gb : GeoBox)
    (gc : GridCoords) (f : RVal) (groups : List (List Geometry × Series))
    (g : List Geometry × Series) (hg : g ∈ groups)
    (hnull : rfn g.1 (formatSeriesData g.2) gb gc
      (measurementFill f g.2.dtype) = none) :
    rasterizeGroups rfn gb gc f groups = none := by
  induction groups with
  | nil => cases hg
  | cons hd tl ih =>
    rcases List.mem_cons.mp hg with rfl | hmem
    · simp [rasterizeGroups, hnull]
    · unfold rasterizeGroups
      rcases hr : rfn hd.1 (formatSeriesData hd.2) gb gc
          (measurementFill f hd.2.dtype) with _ | img
      · rfl
      · rw [ih hmem]; rfl

theorem getGroupedGrid_none (rfn : RasterizeFn) (gb : GeoBox)
    (gc : GridCoords) (f : RVal) (gby : String)
    (groups : List (List Geometry × Series)) (name : String)
    (h : rasterizeGroups rfn gb gc f groups = none) :
    getGroupedGrid rfn gb gc f gby groups name = none := by
  unfold getGroupedGrid
  rw [h]

theorem mem_getDatasetGrouped (rfn : RasterizeFn) (gb : GeoBox)
    (gc : GridCoords) (f : RVal) (gby : String) (cols : List MeasurementData)
    (n : String) (e : GridEntry) :
    (n, e) ∈ getDatasetGrouped rfn gb gc f gby cols ↔
      ∃ c ∈ cols, c.name = n ∧
        getGroupedGrid rfn gb gc f gby c.groups c.name = some e := by
  unfold getDatasetGrouped
  rw [List.mem_filterMap]
  constructor
  · rintro ⟨c, hc, hmap⟩
    rcases Option.map_eq_some'.mp hmap with ⟨a, ha, hpair⟩
    injection hpair with h1 h2
    exact ⟨c, hc, h1, h2 ▸ ha⟩
  · rintro ⟨c, hc, hname, hgrid⟩
    refine ⟨c, hc, ?_⟩
    rw [hgrid]
    simp [hname]

/-- C1: grouped rasterization is all-or-nothing per measurement — when the
strategy returns null for any single group of a measurement, that
measurement is entirely absent from the output data variables (no layer
for any group), while every measurement whose grouped grid succeeds is
still assembled; the assembly itself is a total function, so the overall
call still succeeds. -/
theorem grouped_null_skips_whole_measurement (rfn : RasterizeFn)
    (gb : GeoBox) (gc : GridCoords) (f : RVal) (gby : String)
    (cols : List MeasurementData) (c : MeasurementData) (hc : c ∈ cols)
    (g : List Geometry × Series) (hg : g ∈ c.groups)
    (hnull : rfn g.1 (formatSeriesData g.2) gb gc
      (measurementFill f g.2.dtype) = none)
    (hnodup : (cols.map MeasurementData.name).Nodup) :
    (∀ e, (c.name, e) ∉ getDatasetGrouped rfn gb gc f gby cols) ∧
    (∀ c2, c2 ∈ cols → ∀ e,
      getGroupedGrid rfn gb gc f gby c2.groups c2.name = some e →
      (c2.name, e) ∈ getDatasetGrouped rfn gb gc f gby cols) := by
  have hcnone : getGroupedGrid rfn gb gc f gby c.groups c.name = none :=
    getGroupedGrid_none rfn gb gc f gby c.groups c.name
      (rasterizeGroups_none_of_mem rfn gb gc f c.groups g hg hnull)
  constructor
  · intro e hmem
    rcases (mem_getDatasetGrouped rfn gb gc f gby cols c.name e).mp hmem
      with ⟨c2, hc2, hname, hgrid⟩
    have heq : c2 = c := List.inj_on_of_nodup_map hnodup hc2 hc hname
    rw [heq, hcnone] at hgrid
    cases hgrid
  · intro c2 hc2 e hgrid
    exact (mem_getDatasetGrouped rfn gb gc f gby cols c2.name e).mpr
      ⟨c2, hc2, rfl, hgrid⟩

/-- Measurement column "a" of the demo grouped frame: one group holding the
numeric series. -/
def demoColA : MeasurementData :=
  { name := "a", groups := [([demoGeometry], demoNumSeries)] }

/-- Measurement column "b" of the demo grouped frame: one group holding the
string series, which no strategy can rasterize. -/
def demoColB : MeasurementData :=
  { name := "b", groups := [([demoGeometry], demoStrSeries)] }

/-- The demo grouped frame: two measurements over one group each. -/
def demoCols : List MeasurementData := [demoColA, demoColB]

/-- Grid entry the default strategy produces for measurement "a" of the
demo grouped frame. -/
def demoGroupEntryA : GridEntry :=
  { dims := ["g", "y", "x"]
    layers := [{ dtype := DType.float64, height := 1, width := 1,
                 cells := [RVal.num 2] }]
    attrs := getAttrs "a" RVal.nan }

theorem grouped_null_skips_whole_measurement_witness :
    ("b", demoGroupEntryA) ∉
      getDatasetGrouped rasterizeImageFn demoGeoBox demoCoords RVal.nan "g"
        demoCols ∧
    ("a", demoGroupEntryA) ∈
      getDatasetGrouped rasterizeImageFn demoGeoBox demoCoords RVal.nan "g"
        demoCols :=
  ⟨(grouped_null_skips_whole_measurement rasterizeImageFn demoGeoBox
      demoCoords RVal.nan "g" demoCols demoColB (by decide)
      ([demoGeometry], demoStrSeries) (by decide) (by decide) (by decide)).1
      demoGroupEntryA,
   (grouped_null_skips_whole_measurement rasterizeImageFn demoGeoBox
      demoCoords RVal.nan "g" demoCols demoColB (by decide)
      ([demoGeometry], demoStrSeries) (by decide) (by decide) (by decide)).2
      demoColA (by decide) demoGroupEntryA (by decide)⟩

end Geocube
